import Mathlib

/-!
Verification of the move-assessment core of the Chess-Analyzer-Instructor
repository (src/instructor.py, with the earlier variant
src/instructor_no_tact_analysis.py embedded under the suffix `_nt`).

The chess rules engine (python-chess) and the position oracle (the external
analysis engine) are external collaborators: a board is embedded as an
abstract query surface (the exact queries the analyzed code performs), a
board after a sequence of pushed moves being the data assigned to that path
of moves.  The oracle is a function from a board to an optional evaluation
(`none` standing for a raised exception).  All logic of the repository is
translated function by function from the Python source.
-/

/-- A chess move: from-square, to-square, optional promotion piece type.
Equality is structural, as for `chess.Move`. -/
structure Move where
  from_square : Nat
  to_square : Nat
  promotion : Option Nat
deriving DecidableEq

/-- A piece: piece type (PAWN=1 .. KING=6) and color (true = WHITE). -/
structure Piece where
  piece_type : Nat
  color : Bool
deriving DecidableEq

/-- The query surface of a `chess.Board` consumed by the analyzed code. -/
structure BoardData where
  turn : Bool
  legal_moves : List Move
  is_checkmate : Bool
  piece_at : Nat → Option Piece
  is_attacked_by : Bool → Nat → Bool
  pieces : Nat → Bool → List Nat
  attacks : Nat → List Nat
  attackers : Bool → Nat → List Nat
  is_pinned : Bool → Nat → Bool
  pin : Bool → Nat → List Nat
  king : Bool → Option Nat

/-- A board is its query data after every possible sequence of pushes:
`b p` is the data of the board once the moves of `p` have been pushed. -/
def Board : Type := List Move → BoardData

def Board.push (b : Board) (mv : Move) : Board := fun ms => b (mv :: ms)

def Board.turn (b : Board) : Bool := (b []).turn

def Board.legal_moves (b : Board) : List Move := (b []).legal_moves

def Board.is_checkmate (b : Board) : Bool := (b []).is_checkmate

def Board.piece_at (b : Board) (sq : Nat) : Option Piece := (b []).piece_at sq

def Board.is_attacked_by (b : Board) (c : Bool) (sq : Nat) : Bool := (b []).is_attacked_by c sq

def Board.pieces (b : Board) (pt : Nat) (c : Bool) : List Nat := (b []).pieces pt c

def Board.attacks (b : Board) (sq : Nat) : List Nat := (b []).attacks sq

def Board.attackers (b : Board) (c : Bool) (sq : Nat) : List Nat := (b []).attackers c sq

def Board.is_pinned (b : Board) (c : Bool) (sq : Nat) : Bool := (b []).is_pinned c sq

def Board.pin (b : Board) (c : Bool) (sq : Nat) : List Nat := (b []).pin c sq

def Board.king (b : Board) (c : Bool) : Option Nat := (b []).king c

/-- The position oracle: `cp_score_white` of `engine.analyze(board)`. -/
structure AnalysisResult where
  cp_score_white : Int

/-- An engine adapter; `none` models a raised exception. -/
def Engine : Type := Board → Option AnalysisResult

/-- `MoveGrade` of instructor.py (an IntEnum, values 1..6). -/
inductive MoveGrade where
  | BLUNDER
  | MISTAKE
  | INACCURACY
  | GOOD
  | EXCELLENT
  | BEST
deriving DecidableEq

/-- The IntEnum value of a grade (BLUNDER=1 .. BEST=6). -/
def MoveGrade.val : MoveGrade → Nat
  | .BLUNDER => 1
  | .MISTAKE => 2
  | .INACCURACY => 3
  | .GOOD => 4
  | .EXCELLENT => 5
  | .BEST => 6

def MATE_THRESHOLD : Int := 50000

/-- `PIECE_VALUES.get(pt, 0)`: the dict lookup with default 0. -/
def PIECE_VALUES_get : Nat → Int
  | 1 => 100
  | 2 => 300
  | 3 => 300
  | 4 => 500
  | 5 => 900
  | _ => 0

structure MoveAssessment where
  move_played : Move
  grade : MoveGrade
  eval_initial : Int
  eval_final : Int
  centipawn_loss : Int
  best_move : Option Move
  was_best_move : Bool
  explanation : String
deriving DecidableEq

def _calculate_centipawn_loss (eval_initial eval_final : Int) (is_white : Bool) : Int :=
  if is_white then eval_initial - eval_final else eval_final - eval_initial

def _to_player_eval (cp : Int) (is_white : Bool) : Int :=
  if is_white then cp else -cp

def _determine_grade (cp_loss : Int) (was_best : Bool) : MoveGrade :=
  if was_best then .BEST
  else
    let loss := max 0 cp_loss
    if loss ≥ MATE_THRESHOLD then .BLUNDER
    else if loss ≤ 10 then .EXCELLENT
    else if loss ≤ 25 then .GOOD
    else if loss ≤ 50 then .INACCURACY
    else if loss ≤ 100 then .MISTAKE
    else .BLUNDER

def _generate_fallback_explanation (grade : MoveGrade) (_cp_loss : Int) (_has_best : Bool) : String :=
  if grade = .BEST then "This was the best move."
  else if grade = .EXCELLENT then "Excellent move."
  else if grade = .GOOD then "A solid move."
  else if grade = .INACCURACY then "A small inaccuracy."
  else if grade = .MISTAKE then "This move weakened your position."
  else "This move seriously weakened your position."

/-- `chess.piece_name(pt).capitalize()` of python-chess. -/
def piece_name_cap : Nat → String
  | 1 => "Pawn"
  | 2 => "Knight"
  | 3 => "Bishop"
  | 4 => "Rook"
  | 5 => "Queen"
  | 6 => "King"
  | _ => ""

/-! ## Phase 2 tactical detectors of instructor.py -/

def _detect_missed_mate (e0 e1 : Int) (is_white : Bool) : Option String :=
  if _to_player_eval e0 is_white ≥ MATE_THRESHOLD ∧
     _to_player_eval e1 is_white < MATE_THRESHOLD then
    some "You missed a forced checkmate."
  else none

def _detect_allowed_mate (e0 e1 : Int) (is_white : Bool) : Option String :=
  if _to_player_eval e0 is_white > -MATE_THRESHOLD ∧
     _to_player_eval e1 is_white ≤ -MATE_THRESHOLD then
    some "You allowed a forced checkmate."
  else none

def _detect_hung_piece (before after : Board) (color : Bool) : Option String :=
  (List.range 64).findSome? fun sq =>
    match after.piece_at sq with
    | none => none
    | some p =>
      if p.color = color ∧ after.is_attacked_by (!color) sq = true ∧
         after.is_attacked_by color sq = false ∧
         before.is_attacked_by (!color) sq = false then
        some ("You left your " ++ piece_name_cap p.piece_type ++ " undefended.")
      else none

/-- The inner closure `mat` of `_detect_material_loss`: the sum over the
five entries of PIECE_VALUES. -/
def _material (b : Board) (color : Bool) : Int :=
  ((b.pieces 1 color).length : Int) * 100 + ((b.pieces 2 color).length : Int) * 300 +
  ((b.pieces 3 color).length : Int) * 300 + ((b.pieces 4 color).length : Int) * 500 +
  ((b.pieces 5 color).length : Int) * 900

def _detect_material_loss (before after : Board) (color : Bool) : Option String :=
  if _material before color - _material after color ≥ 200 then
    some "You lost material on this move."
  else none

/-! ## Phase 3.1 threat labeling of instructor.py -/

def _detect_threat_type (board : Board) (color : Bool) : Option String :=
  if board.turn = (!color) ∧
     board.legal_moves.any (fun mv => (board.push mv).is_checkmate) = true then
    some "This move failed to stop a mate threat."
  else
    [5, 4, 3, 2].findSome? fun pt =>
      (board.pieces pt color).findSome? fun sq =>
        if board.is_attacked_by (!color) sq = true ∧
           board.is_attacked_by color sq = false then
          some ("Your " ++ piece_name_cap pt ++ " can be captured.")
        else none

/-! ## Phase 3 constraint analysis of instructor.py -/

def _opponent_can_mate_in_one (board : Board) : Bool :=
  board.legal_moves.any fun mv => (board.push mv).is_checkmate

def _get_moves_avoiding_immediate_mate (board : Board) : List Move :=
  board.legal_moves.filter fun mv => !_opponent_can_mate_in_one (board.push mv)

def analyze_constraints (board_before : Board) (move : Move) (e0 e1 : Int)
    (is_white : Bool) (_engine : Option Engine) :
    Option String × Option MoveGrade × Bool :=
  let pe0 := _to_player_eval e0 is_white
  let pe1 := _to_player_eval e1 is_white
  let legal_moves := board_before.legal_moves
  if legal_moves.length = 1 then
    (some "This was the only legal move.", some .BEST, false)
  else if pe0 ≤ -MATE_THRESHOLD then
    (some "Checkmate was unavoidable.", none, false)
  else if pe0 ≤ -800 then
    (some "The position was already lost.", none, false)
  else
    let safe := _get_moves_avoiding_immediate_mate board_before
    if safe.length = 1 ∧ move ∈ safe then
      (some "This was the only move to avoid checkmate.", some .BEST, false)
    else if safe.length = 0 then
      (some "No move could prevent checkmate.", none, false)
    else if pe0 ≥ -100 ∧ pe1 ≤ -300 then
      (some "This move failed to address the threat.", none, true)
    else (none, none, false)

/-! ## Phase 5 tactical pattern attribution of instructor.py -/

def _is_winning_capture (board : Board) (attacker_sq target_sq : Nat) : Bool :=
  match board.piece_at attacker_sq, board.piece_at target_sq with
  | some attacker, some target =>
    let attacker_value := PIECE_VALUES_get attacker.piece_type
    let target_value := PIECE_VALUES_get target.piece_type
    let defenders := board.attackers target.color target_sq
    let defenders_excluding_target := defenders.filter fun sq => sq ≠ target_sq
    if defenders_excluding_target.isEmpty then true
    else if target_value > attacker_value then true
    else false
  | _, _ => false

def _count_fork_targets (board : Board) (attacker_sq : Nat) (victim_color : Bool) : Nat :=
  match board.piece_at attacker_sq with
  | none => 0
  | some _ =>
    (board.attacks attacker_sq).countP fun sq =>
      match board.piece_at sq with
      | none => false
      | some piece =>
        piece.color == victim_color &&
        !(PIECE_VALUES_get piece.piece_type < 300) &&
        _is_winning_capture board attacker_sq sq

def _detect_new_fork (board_before board_after : Board) (player_color : Bool) :
    Option String :=
  (List.range 64).findSome? fun sq =>
    match board_after.piece_at sq with
    | none => none
    | some opp_piece =>
      if opp_piece.color ≠ (!player_color) then none
      else if _count_fork_targets board_after sq player_color < 2 then none
      else
        let skip :=
          match board_before.piece_at sq with
          | some opp_piece_before =>
            opp_piece_before.color == (!player_color) &&
            !(_count_fork_targets board_before sq player_color < 2)
          | none => false
        if skip then none else some "This move allowed a fork."

def _detect_new_pin (board_before board_after : Board) (player_color : Bool)
    (_move_played : Move) : Option String :=
  (List.range 64).findSome? fun sq =>
    match board_after.piece_at sq with
    | none => none
    | some piece =>
      if piece.color ≠ player_color then none
      else if piece.piece_type = 6 then none
      else if board_after.is_pinned player_color sq = false then none
      else
        match board_after.king player_color with
        | none => none
        | some _ =>
          let pin_mask := board_after.pin player_color sq
          if pin_mask.isEmpty then none
          else
            let pinner_found := (List.range 64).any fun potential_pinner =>
              pin_mask.contains potential_pinner &&
              (match board_after.piece_at potential_pinner with
               | some pinner =>
                 pinner.color == (!player_color) &&
                 (pinner.piece_type == 4 || pinner.piece_type == 3 ||
                  pinner.piece_type == 5)
               | none => false)
            if pinner_found = false then none
            else if (match board_before.piece_at sq with
                     | some piece_before =>
                       piece_before.color == player_color &&
                       board_before.is_pinned player_color sq
                     | none => false) = true then none
            else if PIECE_VALUES_get piece.piece_type < 300 then none
            else
              let is_attacked := board_after.is_attacked_by (!player_color) sq
              let defends_something := (board_after.attacks sq).any fun defended_sq =>
                match board_after.piece_at defended_sq with
                | some defended_piece =>
                  defended_piece.color == player_color &&
                  board_after.is_attacked_by (!player_color) defended_sq
                | none => false
              if is_attacked || defends_something then
                some "This move allowed a pin."
              else none

/-- The `while` walk of `_detect_skewer` along the line behind the target
square; the fuel (16) exceeds the at most 8 steps the walk can take before
leaving the board. -/
def _skewer_scan (board_after : Board) (player_color : Bool) (target_val : Int)
    (file_step rank_step : Int) : Nat → Int → Int → Bool
  | 0, _, _ => false
  | fuel + 1, behind_file, behind_rank =>
    if 0 ≤ behind_file ∧ behind_file ≤ 7 ∧ 0 ≤ behind_rank ∧ behind_rank ≤ 7 then
      match board_after.piece_at (behind_rank * 8 + behind_file).toNat with
      | some behind_piece =>
        decide (behind_piece.color = player_color ∧
          0 < PIECE_VALUES_get behind_piece.piece_type ∧
          PIECE_VALUES_get behind_piece.piece_type < target_val)
      | none =>
        _skewer_scan board_after player_color target_val file_step rank_step fuel
          (behind_file + file_step) (behind_rank + rank_step)
    else false

def _detect_skewer (board_after : Board) (player_color : Bool) : Option String :=
  (List.range 64).findSome? fun sq =>
    match board_after.piece_at sq with
    | none => none
    | some piece =>
      if piece.color = player_color then none
      else if ¬(piece.piece_type = 4 ∨ piece.piece_type = 3 ∨ piece.piece_type = 5) then
        none
      else
        (board_after.attacks sq).findSome? fun target_sq =>
          match board_after.piece_at target_sq with
          | none => none
          | some target =>
            if target.color ≠ player_color then none
            else
              let target_val := PIECE_VALUES_get target.piece_type
              if target_val < 500 then none
              else
                let file_diff : Int := Int.ofNat (target_sq % 8) - Int.ofNat (sq % 8)
                let rank_diff : Int := Int.ofNat (target_sq / 8) - Int.ofNat (sq / 8)
                if file_diff = 0 ∧ rank_diff = 0 then none
                else
                  let file_step := file_diff.sign
                  let rank_step := rank_diff.sign
                  if _skewer_scan board_after player_color target_val file_step
                      rank_step 16 (Int.ofNat (target_sq % 8) + file_step)
                      (Int.ofNat (target_sq / 8) + rank_step) = true then
                    some "This move allowed a skewer."
                  else none

/-- `chess.ray(a, b)` of python-chess: the full line through two distinct
aligned squares, empty otherwise. -/
def chess_ray (a b : Nat) : List Nat :=
  let af := Int.ofNat (a % 8)
  let ar := Int.ofNat (a / 8)
  let bf := Int.ofNat (b % 8)
  let br := Int.ofNat (b / 8)
  if a = b then []
  else if af - ar = bf - br then
    (List.range 64).filter fun s => Int.ofNat (s % 8) - Int.ofNat (s / 8) == af - ar
  else if af + ar = bf + br then
    (List.range 64).filter fun s => Int.ofNat (s % 8) + Int.ofNat (s / 8) == af + ar
  else if ar = br then
    (List.range 64).filter fun s => s / 8 == a / 8
  else if af = bf then
    (List.range 64).filter fun s => s % 8 == a % 8
  else []

def _detect_discovered_attack (board_before board_after : Board) (player_color : Bool)
    (move_played : Move) : Option String :=
  let moved_from := move_played.from_square
  match board_before.piece_at moved_from with
  | none => none
  | some moved_piece_before =>
    if moved_piece_before.color ≠ player_color then none
    else
      (List.range 64).findSome? fun opp_sq =>
        match board_after.piece_at opp_sq with
        | none => none
        | some opp_piece =>
          if opp_piece.color ≠ (!player_color) then none
          else if ¬(opp_piece.piece_type = 4 ∨ opp_piece.piece_type = 3 ∨
                    opp_piece.piece_type = 5) then none
          else
            match board_before.piece_at opp_sq with
            | none => none
            | some opp_piece_before =>
              if opp_piece_before.color ≠ (!player_color) then none
              else if opp_piece_before.piece_type ≠ opp_piece.piece_type then none
              else
                let attacks_before := board_before.attacks opp_sq
                if moved_from ∈ attacks_before then none
                else
                  let new_attacks := (board_after.attacks opp_sq).filter
                    fun t => !attacks_before.contains t
                  if new_attacks.isEmpty then none
                  else
                    new_attacks.findSome? fun target_sq =>
                      match board_after.piece_at target_sq with
                      | none => none
                      | some target =>
                        if target.color = player_color ∧
                           PIECE_VALUES_get target.piece_type ≥ 300 ∧
                           moved_from ∈ chess_ray opp_sq target_sq then
                          some "This move allowed a discovered attack."
                        else none

def _detect_back_rank_weakness (board_after : Board) (player_color : Bool) :
    Option String :=
  match board_after.king player_color with
  | none => none
  | some king_sq =>
    let back_rank := if player_color then 0 else 7
    if king_sq / 8 ≠ back_rank then none
    else
      let king_file := king_sq % 8
      let second_rank := if player_color then 1 else 6
      let files := [Int.ofNat king_file - 1, Int.ofNat king_file, Int.ofNat king_file + 1]
      let valid_files := files.filter fun f => decide (0 ≤ f ∧ f ≤ 7)
      let checked_count := valid_files.length
      let blocked_count := valid_files.countP fun f =>
        match board_after.piece_at (second_rank * 8 + f.toNat) with
        | some p => p.color == player_color
        | none => false
      if checked_count = 0 ∨ blocked_count < checked_count then none
      else if (List.range 64).any (fun opp_sq =>
          match board_after.piece_at opp_sq with
          | some opp_piece =>
            opp_piece.color == (!player_color) &&
            (opp_piece.piece_type == 4 || opp_piece.piece_type == 5) &&
            (List.range 8).any fun f =>
              (board_after.attacks opp_sq).contains (back_rank * 8 + f)
          | none => false) = true then
        some "This move exposed a back rank weakness."
      else none

def _detect_new_hanging_piece (board_before board_after : Board)
    (player_color : Bool) : Option String :=
  (List.range 64).findSome? fun sq =>
    match board_after.piece_at sq with
    | none => none
    | some piece_after =>
      if piece_after.color ≠ player_color then none
      else if piece_after.piece_type = 6 then none
      else if PIECE_VALUES_get piece_after.piece_type < 300 then none
      else if board_after.is_attacked_by (!player_color) sq = false then none
      else if board_after.is_attacked_by player_color sq = true then none
      else
        let skip :=
          match board_before.piece_at sq with
          | some piece_before =>
            piece_before.color == player_color &&
            board_before.is_attacked_by (!player_color) sq &&
            !board_before.is_attacked_by player_color sq
          | none => false
        if skip then none else some "This move left a piece hanging."

def _detect_overloaded_defender (board_before board_after : Board)
    (player_color : Bool) (move_played : Move) : Option String :=
  let moved_to := move_played.to_square
  match board_after.piece_at moved_to with
  | none => none
  | some moved_piece =>
    if moved_piece.color ≠ player_color then none
    else
      (List.range 64).findSome? fun sq =>
        match board_after.piece_at sq with
        | none => none
        | some piece_after =>
          if piece_after.color ≠ player_color then none
          else if sq = moved_to then none
          else if board_after.is_attacked_by (!player_color) sq = false then none
          else
            let defenders_before := board_before.attackers player_color sq
            let defenders_after := board_after.attackers player_color sq
            if defenders_before.isEmpty then none
            else
              let lost_defenders := defenders_before.filter
                fun d => !defenders_after.contains d
              if lost_defenders.isEmpty then none
              else
                lost_defenders.findSome? fun defender_sq =>
                  match board_before.piece_at defender_sq with
                  | none => none
                  | some defender_before =>
                    if defender_before.color ≠ player_color then none
                    else
                      match board_after.piece_at defender_sq with
                      | none => none
                      | some defender_still =>
                        if defender_still.color ≠ player_color then none
                        else
                          let defender_attacks_before := board_before.attacks defender_sq
                          let defender_attacks_after := board_after.attacks defender_sq
                          let defended_before_count :=
                            defender_attacks_before.countP fun potential_sq =>
                              match board_before.piece_at potential_sq with
                              | some potential_piece =>
                                potential_piece.color == player_color &&
                                board_before.is_attacked_by (!player_color) potential_sq
                              | none => false
                          if defended_before_count ≥ 2 ∧
                             moved_to ∈ defender_attacks_after then
                            some "This move overloaded a defender."
                          else none

def _detect_new_mate_threat (board_after : Board) (player_color : Bool) :
    Option String :=
  if board_after.turn ≠ (!player_color) then none
  else if board_after.legal_moves.any (fun mv => (board_after.push mv).is_checkmate) = true then
    some "This move allowed a mate threat."
  else none

def detect_tactical_pattern (board_before board_after : Board) (player_color : Bool)
    (move_played : Move) (threat_already_detected : Bool) : Option String :=
  match (if threat_already_detected then none
         else _detect_new_mate_threat board_after player_color) with
  | some r => some r
  | none =>
    match _detect_new_fork board_before board_after player_color with
    | some r => some r
    | none =>
      match _detect_new_pin board_before board_after player_color move_played with
      | some r => some r
      | none =>
        match _detect_skewer board_after player_color with
        | some r => some r
        | none =>
          match _detect_discovered_attack board_before board_after player_color
              move_played with
          | some r => some r
          | none =>
            match _detect_back_rank_weakness board_after player_color with
            | some r => some r
            | none =>
              match _detect_new_hanging_piece board_before board_after player_color with
              | some r => some r
              | none =>
                _detect_overloaded_defender board_before board_after player_color
                  move_played

/-! ## Assessment assembly of instructor.py -/

/-- Python truthiness of a `chess.Move` (`bool(from or to or promotion or drop)`). -/
def move_is_truthy (m : Move) : Bool :=
  m.from_square != 0 || m.to_square != 0 ||
  (match m.promotion with | some p => p != 0 | none => false)

/-- The check `"mate" in s.lower()` applied to explanation strings. -/
def mentions_mate (s : String) : Bool := !((s.toLower.splitOn "mate").length == 1)

/-- `was_best = move_played == best_move if best_move else False`, with the
Python truthiness of the optional recommended move. -/
def _was_best (move_played : Move) (best_move : Option Move) : Bool :=
  match best_move with
  | some bm => if move_is_truthy bm then move_played == bm else false
  | none => false

/-- The constraint step of `assess_move`: runs `analyze_constraints` when a
before-board is present, keeping its explanation and applying its grade
override; the third component is the `threat_failure` flag. -/
def _constraint_phase (board_before : Option Board) (move_played : Move)
    (eval_initial eval_final : Int) (player_is_white : Bool)
    (engine : Option Engine) (grade0 : MoveGrade) :
    Option String × MoveGrade × Bool :=
  match board_before with
  | none => (none, grade0, false)
  | some bb =>
    let r := analyze_constraints bb move_played eval_initial eval_final
      player_is_white engine
    (r.1, (match r.2.1 with | some g => g | none => grade0), r.2.2)

/-- The threat-classification step of `assess_move`; the second component is
the `mate_threat_detected` flag. -/
def _threat_phase (threat_failure : Bool) (board_after : Option Board)
    (player_is_white : Bool) (explanation : Option String) : Option String × Bool :=
  match threat_failure, board_after with
  | true, some ba =>
    match _detect_threat_type ba player_is_white with
    | some threat_exp => (some threat_exp, mentions_mate threat_exp)
    | none => (explanation, false)
  | _, _ => (explanation, false)

/-- The tuple of phase-2 detector lambdas of `assess_move`, tried in order. -/
def _phase2_detectors (board_before board_after : Board)
    (eval_initial eval_final : Int) (player_is_white : Bool) : Option String :=
  match _detect_missed_mate eval_initial eval_final player_is_white with
  | some r => some r
  | none =>
    match _detect_allowed_mate eval_initial eval_final player_is_white with
    | some r => some r
    | none =>
      match _detect_hung_piece board_before board_after player_is_white with
      | some r => some r
      | none => _detect_material_loss board_before board_after player_is_white

/-- The phase-2 step of `assess_move`: runs the four detectors when no
explanation exists yet and both boards are present (no grade gate). -/
def _phase2_step (explanation : Option String) (mate_flag : Bool)
    (board_before board_after : Option Board) (eval_initial eval_final : Int)
    (player_is_white : Bool) : Option String × Bool :=
  match explanation, board_before, board_after with
  | none, some bb, some ba =>
    match _phase2_detectors bb ba eval_initial eval_final player_is_white with
    | some r => (some r, mate_flag || mentions_mate r)
    | none => (none, mate_flag)
  | e, _, _ => (e, mate_flag)

/-- The phase-5 step of `assess_move`: the tactical battery, gated on no
explanation, no constraint explanation, both boards, and grade at most
INACCURACY. -/
def _phase5_step (explanation : Option String) (constraint_found : Bool)
    (board_before board_after : Option Board) (grade : MoveGrade)
    (player_is_white : Bool) (move_played : Move) (mate_flag : Bool) :
    Option String :=
  match explanation, board_before, board_after with
  | none, some bb, some ba =>
    if constraint_found = false ∧
       (grade = .INACCURACY ∨ grade = .MISTAKE ∨ grade = .BLUNDER) then
      detect_tactical_pattern bb ba player_is_white move_played mate_flag
    else none
  | e, _, _ => e

def assess_move (move_played : Move) (eval_initial eval_final : Int)
    (best_move : Option Move) (player_is_white : Bool)
    (board_before board_after : Option Board) (engine : Option Engine) :
    MoveAssessment :=
  let was_best := _was_best move_played best_move
  let cp_loss := _calculate_centipawn_loss eval_initial eval_final player_is_white
  let grade0 := _determine_grade cp_loss was_best
  let c := _constraint_phase board_before move_played eval_initial eval_final
    player_is_white engine grade0
  let explanation1 := c.1
  let grade := c.2.1
  let threat_failure := c.2.2
  let constraint_found := explanation1.isSome
  let t := _threat_phase threat_failure board_after player_is_white explanation1
  let p2 := _phase2_step t.1 t.2 board_before board_after eval_initial eval_final
    player_is_white
  let explanation4 := _phase5_step p2.1 constraint_found board_before board_after
    grade player_is_white move_played p2.2
  let explanation :=
    match explanation4 with
    | some s => s
    | none => _generate_fallback_explanation grade cp_loss best_move.isSome
  { move_played := move_played, grade := grade, eval_initial := eval_initial,
    eval_final := eval_final, centipawn_loss := cp_loss, best_move := best_move,
    was_best_move := was_best, explanation := explanation }

/-! ## Adaptive difficulty state machine of instructor.py

The module-level counter dict `_adaptive` is embedded as an explicit state
value threaded through the transition function. -/

structure AdaptiveState where
  blunders : Int
  good_moves : Int
deriving DecidableEq

def _update_adaptive_state (s : AdaptiveState) (grade : MoveGrade) : AdaptiveState :=
  if grade = .BLUNDER ∨ grade = .MISTAKE then
    { blunders := s.blunders + 1, good_moves := 0 }
  else if grade = .GOOD ∨ grade = .EXCELLENT ∨ grade = .BEST then
    let g := s.good_moves + 1
    if g ≥ 3 then { blunders := max 0 (s.blunders - 1), good_moves := g }
    else { blunders := s.blunders, good_moves := g }
  else s

def reset_adaptive_state : AdaptiveState := { blunders := 0, good_moves := 0 }

def get_current_mode (s : AdaptiveState) : String :=
  if s.blunders ≥ 5 then "learning"
  else if s.blunders ≥ 3 then "easy"
  else if s.blunders ≥ 1 then "medium"
  else "hard"

/-- Folding `_update_adaptive_state` over a sequence of assessed grades. -/
def apply_grades (s : AdaptiveState) (gs : List MoveGrade) : AdaptiveState :=
  gs.foldl _update_adaptive_state s

/-! ## The earlier variant src/instructor_no_tact_analysis.py (suffix `_nt`)

Its `_determine_grade`, `_calculate_centipawn_loss`, `_to_player_eval`,
`_opponent_can_mate_in_one` and `_get_moves_avoiding_immediate_mate` are
textually identical to the instructor.py ones above and are shared. -/

/-- `piece.symbol().upper()` of python-chess. -/
def piece_symbol_upper : Nat → String
  | 1 => "P"
  | 2 => "N"
  | 3 => "B"
  | 4 => "R"
  | 5 => "Q"
  | 6 => "K"
  | _ => ""

def _detect_missed_mate_nt (eval_initial eval_final : Int) : Option String :=
  if |eval_initial| ≥ MATE_THRESHOLD ∧ |eval_final| < MATE_THRESHOLD then
    some "You missed a forced checkmate."
  else none

def _detect_allowed_mate_nt (_board_after : Board) (eval_final : Int)
    (player_is_white : Bool) : Option String :=
  let losing_side := if eval_final < 0 then true else false
  let player_color := player_is_white
  if |eval_final| ≥ MATE_THRESHOLD ∧ losing_side = player_color then
    some "You allowed a forced checkmate."
  else none

def _detect_hung_piece_nt (board_before board_after : Board) (player_color : Bool) :
    Option String :=
  (List.range 64).findSome? fun square =>
    match board_after.piece_at square with
    | none => none
    | some piece =>
      if piece.color ≠ player_color then none
      else
        let attacked := board_after.is_attacked_by (!player_color) square
        let defended := board_after.is_attacked_by player_color square
        let was_attacked_before := board_before.is_attacked_by (!player_color) square
        if attacked && !defended && !was_attacked_before then
          some ("You hung your " ++ piece_symbol_upper piece.piece_type ++
            ". It is undefended and can be captured.")
        else none

def _detect_material_loss_nt (board_before board_after : Board)
    (player_color : Bool) : Option String :=
  if _material board_before player_color - _material board_after player_color ≥ 200 then
    some "You lost material due to this move."
  else none

/-- `_all_moves_lose`: with an engine, the first 3 legal moves must all
re-evaluate to at most -800 from the player perspective; an oracle failure
(`none`) counts as not lost. -/
def _all_moves_lose (board_before : Board) (player_is_white : Bool)
    (engine : Option Engine) : Bool :=
  match engine with
  | none => false
  | some eng =>
    (board_before.legal_moves.take 3).all fun move =>
      match eng (board_before.push move) with
      | some result =>
        decide (_to_player_eval result.cp_score_white player_is_white ≤ -800)
      | none => false

/-- `_get_viable_alternatives`: counts the played move plus the alternatives
whose re-evaluation stays within 200 centipawns of `played_eval`; more than
6 legal moves short-circuits to 2; an oracle failure counts as viable. -/
def _get_viable_alternatives (board_before : Board) (move_played : Move)
    (played_eval : Int) (player_is_white : Bool) (eng : Engine) : Nat :=
  let legal_moves := board_before.legal_moves
  if legal_moves.length > 6 then 2
  else
    legal_moves.countP fun move =>
      if move == move_played then true
      else
        match eng (board_before.push move) with
        | some result =>
          decide (_to_player_eval result.cp_score_white player_is_white ≥
            played_eval - 200)
        | none => true

def _saving_move_exists (board_before : Board) (move_played : Move)
    (player_is_white : Bool) (eng : Engine) : Bool :=
  ((board_before.legal_moves.filter fun m => m != move_played).take 3).any fun move =>
    match eng (board_before.push move) with
    | some result =>
      decide (_to_player_eval result.cp_score_white player_is_white ≥ -100)
    | none => false

def analyze_constraints_nt (board_before : Board) (move_played : Move)
    (eval_initial eval_final : Int) (player_is_white : Bool)
    (engine : Option Engine) : Option String :=
  let player_eval_before := _to_player_eval eval_initial player_is_white
  let player_eval_after := _to_player_eval eval_final player_is_white
  let legal_moves := board_before.legal_moves
  if player_eval_before ≤ -800 ∧
     _all_moves_lose board_before player_is_white engine = true then
    some "The position was already lost."
  else if legal_moves.length = 1 then some "This was the only move."
  else
    let moves_avoiding_mate := _get_moves_avoiding_immediate_mate board_before
    if moves_avoiding_mate.length = 1 ∧ move_played ∈ moves_avoiding_mate then
      some "This was the only move."
    else
      match engine with
      | some eng =>
        if legal_moves.length ≤ 6 ∧
           _get_viable_alternatives board_before move_played player_eval_after
             player_is_white eng = 1 then
          some "This was the only move."
        else if player_eval_before ≥ -100 ∧ player_eval_after ≤ -300 ∧
            _saving_move_exists board_before move_played player_is_white eng = true then
          some "This move failed to stop the threat."
        else none
      | none => none

def assess_move_nt (move_played : Move) (eval_initial eval_final : Int)
    (best_move : Option Move) (player_is_white : Bool)
    (board_before board_after : Option Board) (engine : Option Engine) :
    MoveAssessment :=
  let was_best := _was_best move_played best_move
  let cp_loss := _calculate_centipawn_loss eval_initial eval_final player_is_white
  let grade := _determine_grade cp_loss was_best
  let explanation0 := "This move caused a significant evaluation drop."
  let explanation1 :=
    match board_before, board_after with
    | some bb, some ba =>
      (match _detect_missed_mate_nt eval_initial eval_final with
       | some r => r
       | none =>
         match _detect_allowed_mate_nt ba eval_final player_is_white with
         | some r => r
         | none =>
           match _detect_hung_piece_nt bb ba player_is_white with
           | some r => r
           | none =>
             match _detect_material_loss_nt bb ba player_is_white with
             | some r => r
             | none => explanation0)
    | _, _ => explanation0
  let explanation2 :=
    match board_before with
    | some bb =>
      (match analyze_constraints_nt bb move_played eval_initial eval_final
          player_is_white engine with
       | some c => c
       | none => explanation1)
    | none => explanation1
  { move_played := move_played, grade := grade, eval_initial := eval_initial,
    eval_final := eval_final, centipawn_loss := cp_loss, best_move := best_move,
    was_best_move := was_best, explanation := explanation2 }

/-! ## Concrete boards and oracles used by witnesses and counterexamples -/

def mv0 : Move := ⟨0, 1, none⟩

def mv1 : Move := ⟨8, 16, none⟩

def mv2 : Move := ⟨9, 17, none⟩

def empty_data : BoardData :=
  { turn := true, legal_moves := [], is_checkmate := false,
    piece_at := fun _ => none, is_attacked_by := fun _ _ => false,
    pieces := fun _ _ => [], attacks := fun _ => [],
    attackers := fun _ _ => [], is_pinned := fun _ _ => false,
    pin := fun _ _ => [], king := fun _ => none }

/-- A board whose query data is the same after every push sequence. -/
def board_of (d : BoardData) : Board := fun _ => d

/-- A board with exactly one legal move and nothing else going on. -/
def board_one_legal : Board := board_of { empty_data with legal_moves := [mv0] }

/-- A quiet board with two legal moves, no mates, no pieces. -/
def board_two_legal : Board := board_of { empty_data with legal_moves := [mv0, mv1] }

/-- A board with three legal moves where the board reached by pushing a move
is tagged (through the `king` query) so that an oracle can tell the pushed
moves apart. -/
def board_tagged : Board := fun path =>
  match path with
  | [] => { empty_data with legal_moves := [mv0, mv1, mv2] }
  | [m] =>
    { empty_data with
      king := fun c =>
        if c then (if m == mv1 then some 11 else if m == mv2 then some 12 else some 10)
        else none }
  | _ => empty_data

/-- An oracle evaluating every position to the same white-relative score. -/
def oracle_flat (v : Int) : Engine := fun _ => some ⟨v⟩

/-- An oracle reading the tag of `board_tagged` positions: the position after
`mv1` scores 0, the one after `mv2` scores -1000, anything else 0. -/
def oracle_tagged : Engine := fun b =>
  match (b []).king true with
  | some 11 => some ⟨0⟩
  | some 12 => some ⟨-1000⟩
  | _ => some ⟨0⟩

/-- An after-board where the white pawn on square 0 is attacked by black and
undefended, while `board_two_legal` (as before-board) has it unattacked. -/
def board_hung_after : Board := board_of
  { empty_data with
    legal_moves := [mv0, mv1],
    piece_at := fun sq => if sq == 0 then some ⟨1, true⟩ else none,
    is_attacked_by := fun c sq => !c && sq == 0 }

/-! ## C1 -/

/-- C1: the grade of a move is BEST whenever the recommended-move flag is
set, regardless of the evaluations; otherwise, with the mover-relative loss
(evalInitial - evalFinal for a White mover, evalFinal - evalInitial for a
Black mover) clamped below at 0, the grade is BLUNDER at or above 50000,
EXCELLENT up to 10, GOOD up to 25, INACCURACY up to 50, MISTAKE up to 100,
and BLUNDER strictly between 100 and 50000; in particular a White mover
with evalInitial 50 and evalFinal -120 playing a non-recommended move
grades BLUNDER. -/
theorem C1_grading_bands (e0 e1 : Int) (is_white was_rec : Bool) :
    (is_white = true → _calculate_centipawn_loss e0 e1 is_white = e0 - e1) ∧
    (is_white = false → _calculate_centipawn_loss e0 e1 is_white = e1 - e0) ∧
    (was_rec = true →
      _determine_grade (_calculate_centipawn_loss e0 e1 is_white) was_rec = .BEST) ∧
    (was_rec = false →
      (max 0 (_calculate_centipawn_loss e0 e1 is_white) ≥ 50000 →
        _determine_grade (_calculate_centipawn_loss e0 e1 is_white) was_rec = .BLUNDER) ∧
      (max 0 (_calculate_centipawn_loss e0 e1 is_white) ≤ 10 →
        _determine_grade (_calculate_centipawn_loss e0 e1 is_white) was_rec = .EXCELLENT) ∧
      (10 < max 0 (_calculate_centipawn_loss e0 e1 is_white) ∧
          max 0 (_calculate_centipawn_loss e0 e1 is_white) ≤ 25 →
        _determine_grade (_calculate_centipawn_loss e0 e1 is_white) was_rec = .GOOD) ∧
      (25 < max 0 (_calculate_centipawn_loss e0 e1 is_white) ∧
          max 0 (_calculate_centipawn_loss e0 e1 is_white) ≤ 50 →
        _determine_grade (_calculate_centipawn_loss e0 e1 is_white) was_rec = .INACCURACY) ∧
      (50 < max 0 (_calculate_centipawn_loss e0 e1 is_white) ∧
          max 0 (_calculate_centipawn_loss e0 e1 is_white) ≤ 100 →
        _determine_grade (_calculate_centipawn_loss e0 e1 is_white) was_rec = .MISTAKE) ∧
      (100 < max 0 (_calculate_centipawn_loss e0 e1 is_white) ∧
          max 0 (_calculate_centipawn_loss e0 e1 is_white) < 50000 →
        _determine_grade (_calculate_centipawn_loss e0 e1 is_white) was_rec = .BLUNDER)) ∧
    _determine_grade (_calculate_centipawn_loss 50 (-120) true) false = .BLUNDER := by
  refine ⟨fun h => by simp [_calculate_centipawn_loss, h],
          fun h => by simp [_calculate_centipawn_loss, h],
          fun h => by simp [_determine_grade, h], ?_, by decide⟩
  intro h
  subst h
  have hg : ∀ cp : Int, _determine_grade cp false =
      (if max 0 cp ≥ 50000 then MoveGrade.BLUNDER
       else if max 0 cp ≤ 10 then .EXCELLENT
       else if max 0 cp ≤ 25 then .GOOD
       else if max 0 cp ≤ 50 then .INACCURACY
       else if max 0 cp ≤ 100 then .MISTAKE
       else .BLUNDER) := by
    intro cp
    simp [_determine_grade, MATE_THRESHOLD]
  refine ⟨?_, ?_, ?_, ?_, ?_, ?_⟩ <;> intro hb <;> rw [hg] <;> split_ifs <;>
    first | rfl | omega

/-- Witness for C1 at the concrete scenario of the claim. -/
theorem C1_grading_bands_witness :
    _calculate_centipawn_loss 50 (-120) true = 50 - (-120) ∧
    _determine_grade (_calculate_centipawn_loss 50 (-120) true) false =
      .BLUNDER := by
  refine ⟨(C1_grading_bands 50 (-120) true false).1 rfl, ?_⟩
  exact ((C1_grading_bands 50 (-120) true false).2.2.2.1 rfl).2.2.2.2.2 (by decide)

/-! ## C8 -/

/-- C8: with the recommended-move flag fixed to false, grading is antitone
in the centipawn loss with respect to the IntEnum order
BLUNDER=1 < MISTAKE=2 < INACCURACY=3 < GOOD=4 < EXCELLENT=5 < BEST=6:
a larger loss never yields a larger grade value. -/
theorem C8_grade_monotone (l1 l2 : Int) (h : l1 ≤ l2) :
    (_determine_grade l2 false).val ≤ (_determine_grade l1 false).val := by
  have hg : ∀ cp : Int, _determine_grade cp false =
      (if max 0 cp ≥ 50000 then MoveGrade.BLUNDER
       else if max 0 cp ≤ 10 then .EXCELLENT
       else if max 0 cp ≤ 25 then .GOOD
       else if max 0 cp ≤ 50 then .INACCURACY
       else if max 0 cp ≤ 100 then .MISTAKE
       else .BLUNDER) := by
    intro cp
    simp [_determine_grade, MATE_THRESHOLD]
  rw [hg, hg]
  split_ifs <;> simp [MoveGrade.val] <;> omega

/-- Witness for C8 at losses 20 and 60. -/
theorem C8_grade_monotone_witness :
    (20 : Int) ≤ 60 ∧
    (_determine_grade 60 false).val ≤ (_determine_grade 20 false).val :=
  ⟨by decide, C8_grade_monotone 20 60 (by decide)⟩

/-! ## C7 -/

/-- C7 counterexample: from a freshly reset adaptive state, after the second
of three consecutive BLUNDER grades the mode is "medium", not "easy": the
mode sequence is hard, medium, medium, easy, not hard, medium, easy, easy. -/
theorem C7_mode_sequence_counterexample :
    get_current_mode (apply_grades reset_adaptive_state [.BLUNDER, .BLUNDER]) =
      "medium" ∧
    get_current_mode (apply_grades reset_adaptive_state [.BLUNDER, .BLUNDER]) ≠
      "easy" ∧
    [get_current_mode reset_adaptive_state,
     get_current_mode (apply_grades reset_adaptive_state [.BLUNDER]),
     get_current_mode (apply_grades reset_adaptive_state [.BLUNDER, .BLUNDER]),
     get_current_mode (apply_grades reset_adaptive_state
       [.BLUNDER, .BLUNDER, .BLUNDER])] ≠
    ["hard", "medium", "easy", "easy"] := by decide

/-- C7 (amended): from a freshly reset adaptive state, three consecutive
BLUNDER grades drive the mode through hard, medium, medium, easy; three
consecutive BEST grades applied after two accumulated errors reduce the
error counter by exactly 1; and throughout, the mode is determined by the
error-count bands: at least 5 learning, 3 to 4 easy, 1 to 2 medium,
otherwise hard. -/
theorem C7_adaptive_amended :
    ([get_current_mode reset_adaptive_state,
      get_current_mode (apply_grades reset_adaptive_state [.BLUNDER]),
      get_current_mode (apply_grades reset_adaptive_state [.BLUNDER, .BLUNDER]),
      get_current_mode (apply_grades reset_adaptive_state
        [.BLUNDER, .BLUNDER, .BLUNDER])] =
      ["hard", "medium", "medium", "easy"]) ∧
    ((apply_grades reset_adaptive_state
        [.BLUNDER, .BLUNDER, .BEST, .BEST, .BEST]).blunders =
      (apply_grades reset_adaptive_state [.BLUNDER, .BLUNDER]).blunders - 1) ∧
    (∀ s : AdaptiveState,
      (5 ≤ s.blunders → get_current_mode s = "learning") ∧
      (3 ≤ s.blunders ∧ s.blunders < 5 → get_current_mode s = "easy") ∧
      (1 ≤ s.blunders ∧ s.blunders < 3 → get_current_mode s = "medium") ∧
      (s.blunders < 1 → get_current_mode s = "hard")) := by
  refine ⟨by decide, by decide, fun s => ?_⟩
  unfold get_current_mode
  refine ⟨?_, ?_, ?_, ?_⟩ <;> intro h <;> split_ifs <;> first | rfl | omega

/-- Witness for C7 (amended) at a state with five accumulated errors. -/
theorem C7_adaptive_amended_witness :
    (5 : Int) ≤ (5 : Int) ∧ get_current_mode ⟨5, 0⟩ = "learning" :=
  ⟨by decide, (C7_adaptive_amended.2.2 ⟨5, 0⟩).1 (by decide)⟩

/-! ## C10 -/

/-- Any run of good-or-better grades from a state whose streak counter is
already at least 2 decrements the error counter once per grade, floored
at 0. -/
theorem good_run_blunders (gs : List MoveGrade)
    (hgs : ∀ g ∈ gs, g = .GOOD ∨ g = .EXCELLENT ∨ g = .BEST)
    (b m : Int) (hm : 2 ≤ m) :
    (apply_grades ⟨b, m⟩ gs).blunders = max 0 (b - gs.length) ∨
    ((apply_grades ⟨b, m⟩ gs).blunders = b ∧ gs = []) := by
  induction gs generalizing b m with
  | nil =>
    right
    exact ⟨rfl, rfl⟩
  | cons g rest ih =>
    left
    have hg := hgs g (by simp)
    have step : _update_adaptive_state ⟨b, m⟩ g = ⟨max 0 (b - 1), m + 1⟩ := by
      rcases hg with h | h | h <;> subst h <;>
        simp only [_update_adaptive_state] <;>
        rw [if_neg (by simp), if_pos (by simp), if_pos (by omega)]
    have hrest : ∀ g ∈ rest, g = .GOOD ∨ g = .EXCELLENT ∨ g = .BEST :=
      fun g hgmem => hgs g (by simp [hgmem])
    have := ih hrest (max 0 (b - 1)) (m + 1) (by omega)
    rcases this with h | ⟨h, hnil⟩
    · show (apply_grades (_update_adaptive_state ⟨b, m⟩ g) rest).blunders = _
      rw [step, h]
      simp only [List.length_cons]
      omega
    · show (apply_grades (_update_adaptive_state ⟨b, m⟩ g) rest).blunders = _
      rw [step, h]
      subst hnil
      simp only [List.length_cons, List.length_nil]
      omega

/-- C10: a good-or-better grade processed while the streak counter is at 3
or more decrements the error counter by 1 floored at 0; and from a fresh
streak with a nonnegative error count e, a run of k at least 3 good-or-
better grades reduces the error counter by min (k - 2) e. -/
theorem C10_good_streak_forgiveness :
    (∀ (s : AdaptiveState) (g : MoveGrade),
      (g = .GOOD ∨ g = .EXCELLENT ∨ g = .BEST) → 3 ≤ s.good_moves →
      (_update_adaptive_state s g).blunders = max 0 (s.blunders - 1)) ∧
    (∀ (e : Int) (gs : List MoveGrade),
      0 ≤ e → 3 ≤ gs.length →
      (∀ g ∈ gs, g = .GOOD ∨ g = .EXCELLENT ∨ g = .BEST) →
      (apply_grades ⟨e, 0⟩ gs).blunders =
        e - min ((gs.length : Int) - 2) e) := by
  constructor
  · intro s g hg h3
    rcases hg with h | h | h <;> subst h <;>
      simp only [_update_adaptive_state] <;>
      rw [if_neg (by simp), if_pos (by simp), if_pos (by omega)]
  · intro e gs he hlen hgs
    rcases gs with _ | ⟨g1, _ | ⟨g2, rest⟩⟩
    · simp at hlen
    · simp at hlen
    · have hg1 := hgs g1 (by simp)
      have hg2 := hgs g2 (by simp)
      have step1 : _update_adaptive_state ⟨e, 0⟩ g1 = ⟨e, 1⟩ := by
        rcases hg1 with h | h | h <;> subst h <;>
          simp only [_update_adaptive_state] <;>
          rw [if_neg (by simp), if_pos (by simp), if_neg (by omega)] <;>
          norm_num
      have step2 : _update_adaptive_state ⟨e, 1⟩ g2 = ⟨e, 2⟩ := by
        rcases hg2 with h | h | h <;> subst h <;>
          simp only [_update_adaptive_state] <;>
          rw [if_neg (by simp), if_pos (by simp), if_neg (by omega)] <;>
          norm_num
      have hrest : ∀ g ∈ rest, g = .GOOD ∨ g = .EXCELLENT ∨ g = .BEST :=
        fun g hgmem => hgs g (by simp [hgmem])
      have hchain :
          apply_grades ⟨e, 0⟩ (g1 :: g2 :: rest) = apply_grades ⟨e, 2⟩ rest := by
        show apply_grades (_update_adaptive_state
          (_update_adaptive_state ⟨e, 0⟩ g1) g2) rest = _
        rw [step1, step2]
      rw [hchain]
      rcases good_run_blunders rest hrest e 2 (by omega) with h | ⟨h, hnil⟩
      · rw [h]
        simp only [List.length_cons]
        omega
      · rw [h]
        subst hnil
        simp only [List.length_cons, List.length_nil]
        omega

/-- Witness for C10: a streak of 3 BEST grades after 2 errors. -/
theorem C10_good_streak_forgiveness_witness :
    (_update_adaptive_state ⟨4, 3⟩ .GOOD).blunders = max 0 (4 - 1) ∧
    (apply_grades ⟨2, 0⟩ [.BEST, .BEST, .BEST]).blunders =
      2 - min ((List.length [MoveGrade.BEST, .BEST, .BEST] : Int) - 2) 2 :=
  ⟨C10_good_streak_forgiveness.1 ⟨4, 3⟩ .GOOD (Or.inl rfl) (by decide),
   C10_good_streak_forgiveness.2 2 [.BEST, .BEST, .BEST] (by decide) (by decide)
     (by decide)⟩

/-! ## C2 -/

/-- The first branch of the constraint analyzer: exactly one legal move. -/
theorem analyze_constraints_one_legal (bb : Board) (move : Move) (e0 e1 : Int)
    (is_white : Bool) (eng : Option Engine) (h : bb.legal_moves.length = 1) :
    analyze_constraints bb move e0 e1 is_white eng =
      (some "This was the only legal move.", some .BEST, false) := by
  unfold analyze_constraints
  rw [if_pos h]

/-- C2: when the position before the move has exactly one legal move, the
assembled assessment carries the only-legal-move explanation and its grade
is forced to BEST, whatever the evaluations, recommended move, after-board
and engine are. -/
theorem C2_only_legal_move (bb : Board) (move : Move) (e0 e1 : Int)
    (best_move : Option Move) (pw : Bool) (ba : Option Board)
    (eng : Option Engine) (h : bb.legal_moves.length = 1) :
    (assess_move move e0 e1 best_move pw (some bb) ba eng).explanation =
      "This was the only legal move." ∧
    (assess_move move e0 e1 best_move pw (some bb) ba eng).grade = .BEST := by
  have hac := analyze_constraints_one_legal bb move e0 e1 pw eng h
  unfold assess_move
  simp only [_constraint_phase, hac, _threat_phase, _phase2_step, _phase5_step,
    Option.isSome]
  exact ⟨trivial, trivial⟩

/-- Witness for C2: a one-legal-move board, no recommendation, with a raw
loss of 500 that alone would grade BLUNDER. -/
theorem C2_only_legal_move_witness :
    board_one_legal.legal_moves.length = 1 ∧
    (assess_move mv0 500 0 none true (some board_one_legal) none none).explanation =
      "This was the only legal move." ∧
    (assess_move mv0 500 0 none true (some board_one_legal) none none).grade =
      .BEST ∧
    _determine_grade (_calculate_centipawn_loss 500 0 true) false = .BLUNDER := by
  have h := C2_only_legal_move board_one_legal mv0 500 0 none true none none
    (by decide)
  exact ⟨by decide, h.1, h.2, by decide⟩

/-! ## C3 -/

/-- A constraint-analyzer result with no explanation is the all-clear
triple. -/
theorem analyze_constraints_none (bb : Board) (mv : Move) (e0 e1 : Int)
    (pw : Bool) (eng : Option Engine)
    (h : (analyze_constraints bb mv e0 e1 pw eng).1 = none) :
    analyze_constraints bb mv e0 e1 pw eng = (none, none, false) := by
  simp only [analyze_constraints] at h ⊢
  split_ifs at h ⊢ <;> simp_all

/-- C3 counterexample: the final constraint analyzer (instructor.py)
produces the position-was-already-lost explanation at mover-relative
evaluation -900 even though the supplied oracle evaluates every alternative
move to 0, so the confirmation the claim requires fails. -/
theorem C3_counterexample :
    analyze_constraints board_two_legal mv0 (-900) 0 true (some (oracle_flat 0)) =
      (some "The position was already lost.", none, false) ∧
    _all_moves_lose board_two_legal true (some (oracle_flat 0)) = false ∧
    _to_player_eval ((-900 : Int)) true ≤ -800 := by decide

/-- C3 (amended): in instructor.py the explanation is produced whenever the
mover-relative evaluation before the move is at most -800 (and above the
mate threshold, with more than one legal move), with no oracle confirmation;
the confirmation by a bounded sample of 3 re-evaluated alternatives, each at
most -800, exists only in instructor_no_tact_analysis.py, where it exactly
characterises the explanation. -/
theorem C3_already_lost_amended :
    (∀ (bb : Board) (move : Move) (e0 e1 : Int) (pw : Bool) (eng : Option Engine),
      bb.legal_moves.length ≠ 1 →
      -MATE_THRESHOLD < _to_player_eval e0 pw →
      _to_player_eval e0 pw ≤ -800 →
      analyze_constraints bb move e0 e1 pw eng =
        (some "The position was already lost.", none, false)) ∧
    (∀ (bb : Board) (move : Move) (e0 e1 : Int) (pw : Bool) (eng : Option Engine),
      analyze_constraints_nt bb move e0 e1 pw eng =
        some "The position was already lost." ↔
      (_to_player_eval e0 pw ≤ -800 ∧ _all_moves_lose bb pw eng = true)) ∧
    (∀ (bb : Board) (pw : Bool) (eng : Engine),
      _all_moves_lose bb pw (some eng) = true ↔
      ∀ mv ∈ bb.legal_moves.take 3, ∃ r, eng (bb.push mv) = some r ∧
        _to_player_eval r.cp_score_white pw ≤ -800) := by
  refine ⟨?_, ?_, ?_⟩
  · intro bb move e0 e1 pw eng h1 h2 h3
    simp only [analyze_constraints]
    rw [if_neg h1, if_neg (by omega), if_pos h3]
  · intro bb move e0 e1 pw eng
    constructor
    · intro h
      by_cases hA : _to_player_eval e0 pw ≤ -800 ∧ _all_moves_lose bb pw eng = true
      · exact hA
      · exfalso
        rcases eng with _ | eng <;>
          (simp only [analyze_constraints_nt] at h; rw [if_neg hA] at h;
           split_ifs at h <;> simp_all)
    · intro hA
      simp only [analyze_constraints_nt]
      rw [if_pos hA]
  · intro bb pw eng
    unfold _all_moves_lose
    rw [List.all_eq_true]
    constructor
    · intro h mv hmv
      have hh := h mv hmv
      cases heng : eng (bb.push mv) with
      | none => rw [heng] at hh; simp at hh
      | some r => rw [heng] at hh; exact ⟨r, rfl, by simpa using hh⟩
    · intro h mv hmv
      obtain ⟨r, hr, hle⟩ := h mv hmv
      rw [hr]
      simpa using hle

/-- Witness for C3 (amended). -/
theorem C3_already_lost_amended_witness :
    board_two_legal.legal_moves.length ≠ 1 ∧
    analyze_constraints board_two_legal mv0 (-900) 0 true none =
      (some "The position was already lost.", none, false) :=
  ⟨by decide, C3_already_lost_amended.1 board_two_legal mv0 (-900) 0 true none
    (by decide) (by decide) (by decide)⟩

/-! ## C4 -/

/-- C4 counterexample: a position with 3 legal moves where exactly one
alternative besides the played move is evaluated within 200 centipawns of
the played move (viable count 2) yields no only-move explanation at all. -/
theorem C4_counterexample :
    board_tagged.legal_moves.length = 3 ∧
    _get_viable_alternatives board_tagged mv0 (_to_player_eval 0 true) true
      oracle_tagged = 2 ∧
    analyze_constraints_nt board_tagged mv0 0 0 true (some oracle_tagged) =
      none := by decide

/-- C4 (amended): the viable-alternatives check exists only in
instructor_no_tact_analysis.py; with at most 6 legal moves and no earlier
constraint firing it returns the only-move explanation exactly when the
viable count is 1, that is, when no alternative besides the played move
stays within 200 centipawns; with more than 6 legal moves the count is
short-circuited to 2 so the check cannot fire; and the grade of the
assembled no-tact assessment is never overridden. -/
theorem C4_only_reasonable_amended :
    (∀ (bb : Board) (mv : Move) (e0 e1 : Int) (pw : Bool) (eng : Engine),
      bb.legal_moves.length ≤ 6 →
      ¬(_to_player_eval e0 pw ≤ -800 ∧ _all_moves_lose bb pw (some eng) = true) →
      bb.legal_moves.length ≠ 1 →
      ¬((_get_moves_avoiding_immediate_mate bb).length = 1 ∧
        mv ∈ _get_moves_avoiding_immediate_mate bb) →
      _get_viable_alternatives bb mv (_to_player_eval e1 pw) pw eng = 1 →
      analyze_constraints_nt bb mv e0 e1 pw (some eng) =
        some "This was the only move.") ∧
    (∀ (bb : Board) (mv : Move) (pe : Int) (pw : Bool) (eng : Engine),
      bb.legal_moves.length > 6 →
      _get_viable_alternatives bb mv pe pw eng = 2) ∧
    (∀ (mv : Move) (e0 e1 : Int) (bm : Option Move) (pw : Bool)
       (bb ba : Option Board) (eng : Option Engine),
      (assess_move_nt mv e0 e1 bm pw bb ba eng).grade =
        _determine_grade (_calculate_centipawn_loss e0 e1 pw) (_was_best mv bm)) := by
  refine ⟨?_, ?_, ?_⟩
  · intro bb mv e0 e1 pw eng h1 hA h3 h4 h5
    simp only [analyze_constraints_nt]
    rw [if_neg hA, if_neg h3, if_neg h4, if_pos ⟨h1, h5⟩]
  · intro bb mv pe pw eng h
    unfold _get_viable_alternatives
    rw [if_pos h]
  · intro mv e0 e1 bm pw bb ba eng
    rfl

/-- Witness for C4 (amended): with an oracle putting every alternative more
than 200 centipawns below the played move, the check fires. -/
theorem C4_only_reasonable_amended_witness :
    board_tagged.legal_moves.length ≤ 6 ∧
    _get_viable_alternatives board_tagged mv0 (_to_player_eval 0 true) true
      (oracle_flat (-1000)) = 1 ∧
    analyze_constraints_nt board_tagged mv0 0 0 true (some (oracle_flat (-1000))) =
      some "This was the only move." :=
  ⟨by decide, by decide, C4_only_reasonable_amended.1 board_tagged mv0 0 0 true
    (oracle_flat (-1000)) (by decide) (by decide) (by decide) (by decide)
    (by decide)⟩

/-! ## C5 -/

/-- C5 counterexample: a BEST-graded move (the recommended one), with no
constraint explanation, still receives the hung-piece detector string
instead of the grade-keyed fallback: the phase-2 detectors are not gated on
the grade. -/
theorem C5_counterexample :
    (assess_move mv0 0 0 (some mv0) true (some board_two_legal)
      (some board_hung_after) none).grade = .BEST ∧
    (analyze_constraints board_two_legal mv0 0 0 true none).1 = none ∧
    (assess_move mv0 0 0 (some mv0) true (some board_two_legal)
      (some board_hung_after) none).explanation =
      "You left your Pawn undefended." ∧
    (assess_move mv0 0 0 (some mv0) true (some board_two_legal)
      (some board_hung_after) none).explanation ≠
      _generate_fallback_explanation .BEST 0 true := by decide

/-- C5 (amended): only the phase-5 battery (new mate threat, fork, pin,
skewer, discovered attack, back rank, new hanging piece, overloaded
defender) is gated on the grade being INACCURACY or worse; for a
GOOD-or-better move with no constraint explanation the explanation is the
first result of the ungated detectors (missed mate, allowed mate, hung
piece, material loss), and only when those produce nothing is it the
grade-keyed fallback. -/
theorem C5_detector_gating_amended (mv : Move) (e0 e1 : Int) (bm : Option Move)
    (pw : Bool) (bb ba : Board) (eng : Option Engine)
    (hc : (analyze_constraints bb mv e0 e1 pw eng).1 = none)
    (hg : _determine_grade (_calculate_centipawn_loss e0 e1 pw) (_was_best mv bm) =
        .GOOD ∨
      _determine_grade (_calculate_centipawn_loss e0 e1 pw) (_was_best mv bm) =
        .EXCELLENT ∨
      _determine_grade (_calculate_centipawn_loss e0 e1 pw) (_was_best mv bm) =
        .BEST) :
    (assess_move mv e0 e1 bm pw (some bb) (some ba) eng).explanation =
      (match _phase2_detectors bb ba e0 e1 pw with
       | some r => r
       | none =>
         _generate_fallback_explanation
           (_determine_grade (_calculate_centipawn_loss e0 e1 pw) (_was_best mv bm))
           (_calculate_centipawn_loss e0 e1 pw) bm.isSome) := by
  have hc3 := analyze_constraints_none bb mv e0 e1 pw eng hc
  unfold assess_move
  simp only [_constraint_phase, hc3, _threat_phase, _phase2_step, _phase5_step,
    Option.isSome]
  cases hd : _phase2_detectors bb ba e0 e1 pw with
  | some r => simp [hd]
  | none =>
    rcases hg with h | h | h <;> simp [hd, h]

/-- Witness for C5 (amended) at the counterexample input. -/
theorem C5_detector_gating_amended_witness :
    (analyze_constraints board_two_legal mv0 0 0 true none).1 = none ∧
    (assess_move mv0 0 0 (some mv0) true (some board_two_legal)
      (some board_hung_after) none).explanation =
      (match _phase2_detectors board_two_legal board_hung_after 0 0 true with
       | some r => r
       | none =>
         _generate_fallback_explanation
           (_determine_grade (_calculate_centipawn_loss 0 0 true)
             (_was_best mv0 (some mv0)))
           (_calculate_centipawn_loss 0 0 true) (some mv0).isSome) :=
  ⟨by decide, C5_detector_gating_amended mv0 0 0 (some mv0) true board_two_legal
    board_hung_after none (by decide) (by decide)⟩

/-! ## C6 -/

/-- C6 counterexample: the constraint analyzer flags the
failed-to-address-threat case, the threat classifier finds nothing, and the
assessment keeps the generic failed-to-address-the-threat explanation. -/
theorem C6_counterexample :
    (assess_move mv0 0 (-400) none true (some board_two_legal)
      (some board_two_legal) none).explanation =
      "This move failed to address the threat." ∧
    _detect_threat_type board_two_legal true = none ∧
    (analyze_constraints board_two_legal mv0 0 (-400) true none).2.2 = true := by
  decide

/-- C6 (amended): whenever the constraint analyzer returns an explanation
together with the threat-failure flag and the threat classifier finds
neither a mating reply nor a capturable piece, the assessment keeps that
constraint explanation; the tactical pattern detectors are not consulted
because an explanation is already present. -/
theorem C6_threat_fallthrough_amended (bb ba : Board) (move : Move) (e0 e1 : Int)
    (bm : Option Move) (pw : Bool) (eng : Option Engine) (s : String)
    (og : Option MoveGrade)
    (hc : analyze_constraints bb move e0 e1 pw eng = (some s, og, true))
    (ht : _detect_threat_type ba pw = none) :
    (assess_move move e0 e1 bm pw (some bb) (some ba) eng).explanation = s := by
  unfold assess_move
  simp only [_constraint_phase, hc, _threat_phase, ht, _phase2_step, _phase5_step,
    Option.isSome]

/-- Witness for C6 (amended) at the counterexample input. -/
theorem C6_threat_fallthrough_amended_witness :
    analyze_constraints board_two_legal mv0 0 (-400) true none =
      (some "This move failed to address the threat.", none, true) ∧
    (assess_move mv0 0 (-400) none true (some board_two_legal)
      (some board_two_legal) none).explanation =
      "This move failed to address the threat." :=
  ⟨by decide, C6_threat_fallthrough_amended board_two_legal board_two_legal mv0 0
    (-400) none true none "This move failed to address the threat." none
    (by decide) (by decide)⟩

/-! ## C9: helper lemmas -/

/-- A successful `findSome?` comes from some list element. -/
theorem findSome?_some_mem {α β : Type} {f : α → Option β} {l : List α} {b : β}
    (h : l.findSome? f = some b) : ∃ a, a ∈ l ∧ f a = some b := by
  obtain ⟨l1, a, l2, hl, hf, _⟩ := List.findSome?_eq_some_iff.mp h
  exact ⟨a, by simp [hl], hf⟩

theorem append3_ne_empty (x y z : String) (hx : 0 < x.length) :
    x ++ y ++ z ≠ "" := by
  intro h
  have hl := congrArg String.length h
  simp [String.length_append] at hl
  omega

theorem fallback_ne_empty (g : MoveGrade) (l : Int) (hb : Bool) :
    _generate_fallback_explanation g l hb ≠ "" := by
  cases g
  · exact (by decide : ("This move seriously weakened your position." : String) ≠ "")
  · exact (by decide : ("This move weakened your position." : String) ≠ "")
  · exact (by decide : ("A small inaccuracy." : String) ≠ "")
  · exact (by decide : ("A solid move." : String) ≠ "")
  · exact (by decide : ("Excellent move." : String) ≠ "")
  · exact (by decide : ("This was the best move." : String) ≠ "")

theorem missed_mate_eq {e0 e1 : Int} {pw : Bool} {s : String}
    (h : _detect_missed_mate e0 e1 pw = some s) :
    s = "You missed a forced checkmate." := by
  unfold _detect_missed_mate at h
  split at h <;> simp_all

theorem allowed_mate_eq {e0 e1 : Int} {pw : Bool} {s : String}
    (h : _detect_allowed_mate e0 e1 pw = some s) :
    s = "You allowed a forced checkmate." := by
  unfold _detect_allowed_mate at h
  split at h <;> simp_all

theorem material_loss_eq {bb ba : Board} {c : Bool} {s : String}
    (h : _detect_material_loss bb ba c = some s) :
    s = "You lost material on this move." := by
  unfold _detect_material_loss at h
  split at h <;> simp_all

theorem hung_piece_ne {bb ba : Board} {c : Bool} {s : String}
    (h : _detect_hung_piece bb ba c = some s) : s ≠ "" := by
  obtain ⟨a, _, ha⟩ := findSome?_some_mem h
  repeat' split at ha
  · exact Option.noConfusion ha
  · injection ha with ha
    subst ha
    exact append3_ne_empty _ _ _ (by decide)
  · exact Option.noConfusion ha

theorem threat_type_ne {b : Board} {c : Bool} {s : String}
    (h : _detect_threat_type b c = some s) : s ≠ "" := by
  unfold _detect_threat_type at h
  split at h
  · injection h with h
    subst h
    decide
  · obtain ⟨pt, _, hpt⟩ := findSome?_some_mem h
    obtain ⟨sq, _, hsq⟩ := findSome?_some_mem hpt
    split at hsq
    · injection hsq with hsq
      subst hsq
      exact append3_ne_empty _ _ _ (by decide)
    · exact Option.noConfusion hsq

theorem mate_threat_eq {ba : Board} {pc : Bool} {s : String}
    (h : _detect_new_mate_threat ba pc = some s) :
    s = "This move allowed a mate threat." := by
  unfold _detect_new_mate_threat at h
  split at h <;> (try split at h) <;> simp_all

theorem fork_eq {bb ba : Board} {pc : Bool} {s : String}
    (h : _detect_new_fork bb ba pc = some s) :
    s = "This move allowed a fork." := by
  obtain ⟨a, _, ha⟩ := findSome?_some_mem h
  repeat' split at ha
  all_goals simp_all

theorem pin_eq {bb ba : Board} {pc : Bool} {mv : Move} {s : String}
    (h : _detect_new_pin bb ba pc mv = some s) :
    s = "This move allowed a pin." := by
  obtain ⟨a, _, ha⟩ := findSome?_some_mem h
  repeat' split at ha
  all_goals simp_all

theorem skewer_eq {ba : Board} {pc : Bool} {s : String}
    (h : _detect_skewer ba pc = some s) :
    s = "This move allowed a skewer." := by
  obtain ⟨a, _, ha⟩ := findSome?_some_mem h
  repeat' split at ha
  all_goals try simp_all
  all_goals (
    obtain ⟨t, _, hta⟩ := findSome?_some_mem ha
    repeat' split at hta
    all_goals simp_all)

theorem discovered_eq {bb ba : Board} {pc : Bool} {mv : Move} {s : String}
    (h : _detect_discovered_attack bb ba pc mv = some s) :
    s = "This move allowed a discovered attack." := by
  simp only [_detect_discovered_attack] at h
  repeat' split at h
  all_goals try exact Option.noConfusion h
  obtain ⟨a, _, ha⟩ := findSome?_some_mem h
  repeat' split at ha
  all_goals try exact Option.noConfusion ha
  obtain ⟨t, _, hta⟩ := findSome?_some_mem ha
  repeat' split at hta
  all_goals try exact Option.noConfusion hta
  injection hta with h2
  exact h2.symm

theorem back_rank_eq {ba : Board} {pc : Bool} {s : String}
    (h : _detect_back_rank_weakness ba pc = some s) :
    s = "This move exposed a back rank weakness." := by
  unfold _detect_back_rank_weakness at h
  repeat' split at h
  all_goals simp_all

theorem hanging_eq {bb ba : Board} {pc : Bool} {s : String}
    (h : _detect_new_hanging_piece bb ba pc = some s) :
    s = "This move left a piece hanging." := by
  obtain ⟨a, _, ha⟩ := findSome?_some_mem h
  repeat' split at ha
  all_goals simp_all

theorem overloaded_eq {bb ba : Board} {pc : Bool} {mv : Move} {s : String}
    (h : _detect_overloaded_defender bb ba pc mv = some s) :
    s = "This move overloaded a defender." := by
  simp only [_detect_overloaded_defender] at h
  repeat' split at h
  all_goals try exact Option.noConfusion h
  obtain ⟨a, _, ha⟩ := findSome?_some_mem h
  repeat' split at ha
  all_goals try exact Option.noConfusion ha
  obtain ⟨t, _, hta⟩ := findSome?_some_mem ha
  repeat' split at hta
  all_goals try exact Option.noConfusion hta
  injection hta with h2
  exact h2.symm

/-- Every explanation the constraint analyzer can produce is non-empty. -/
theorem analyze_constraints_fst_ne {bb : Board} {mv : Move} {e0 e1 : Int}
    {pw : Bool} {eng : Option Engine} {s : String}
    (h : (analyze_constraints bb mv e0 e1 pw eng).1 = some s) : s ≠ "" := by
  simp only [analyze_constraints] at h
  split_ifs at h <;> simp at h <;> (subst h; decide)

/-- A first-result-wins chain preserves non-emptiness. -/
theorem first_some_ne (o1 o2 : Option String)
    (h1 : ∀ t, o1 = some t → t ≠ "") (h2 : ∀ t, o2 = some t → t ≠ "") :
    ∀ t, (match o1 with | some r => some r | none => o2) = some t → t ≠ "" := by
  intro t h
  cases o1 with
  | some r =>
    have hrt : r = t := by simpa using h
    exact hrt ▸ h1 r rfl
  | none => exact h2 t (by simpa using h)

/-- Every explanation the tactical battery can produce is non-empty. -/
theorem tactical_pattern_ne {bb ba : Board} {pc : Bool} {mv : Move} {mf : Bool}
    {s : String} (h : detect_tactical_pattern bb ba pc mv mf = some s) :
    s ≠ "" := by
  have n8 : ∀ t, _detect_overloaded_defender bb ba pc mv = some t → t ≠ "" :=
    fun t ht => by rw [overloaded_eq ht]; decide
  have n7 := first_some_ne (_detect_new_hanging_piece bb ba pc) _
    (fun t ht => by rw [hanging_eq ht]; decide) n8
  have n6 := first_some_ne (_detect_back_rank_weakness ba pc) _
    (fun t ht => by rw [back_rank_eq ht]; decide) n7
  have n5 := first_some_ne (_detect_discovered_attack bb ba pc mv) _
    (fun t ht => by rw [discovered_eq ht]; decide) n6
  have n4 := first_some_ne (_detect_skewer ba pc) _
    (fun t ht => by rw [skewer_eq ht]; decide) n5
  have n3 := first_some_ne (_detect_new_pin bb ba pc mv) _
    (fun t ht => by rw [pin_eq ht]; decide) n4
  have n2 := first_some_ne (_detect_new_fork bb ba pc) _
    (fun t ht => by rw [fork_eq ht]; decide) n3
  have n1 : ∀ t,
      (if mf = true then none else _detect_new_mate_threat ba pc) = some t →
      t ≠ "" := by
    intro t ht
    split at ht
    · exact Option.noConfusion ht
    · rw [mate_threat_eq ht]; decide
  have n0 := first_some_ne _ _ n1 n2
  exact n0 s (by unfold detect_tactical_pattern at h; exact h)

/-- Every explanation the ungated phase-2 detectors can produce is
non-empty. -/
theorem phase2_detectors_ne {bb ba : Board} {e0 e1 : Int} {pw : Bool}
    {s : String} (h : _phase2_detectors bb ba e0 e1 pw = some s) : s ≠ "" := by
  have n4 : ∀ t, _detect_material_loss bb ba pw = some t → t ≠ "" :=
    fun t ht => by rw [material_loss_eq ht]; decide
  have n3 := first_some_ne (_detect_hung_piece bb ba pw) _
    (fun t ht => hung_piece_ne ht) n4
  have n2 := first_some_ne (_detect_allowed_mate e0 e1 pw) _
    (fun t ht => by rw [allowed_mate_eq ht]; decide) n3
  have n1 := first_some_ne (_detect_missed_mate e0 e1 pw) _
    (fun t ht => by rw [missed_mate_eq ht]; decide) n2
  exact n1 s (by unfold _phase2_detectors at h; exact h)

/-- The constraint phase only hands on non-empty explanations. -/
theorem constraint_phase_fst_ne (bb : Option Board) (mv : Move) (e0 e1 : Int)
    (pw : Bool) (eng : Option Engine) (g0 : MoveGrade) :
    ∀ s, (_constraint_phase bb mv e0 e1 pw eng g0).1 = some s → s ≠ "" := by
  intro s hs
  cases bb with
  | none => simp [_constraint_phase] at hs
  | some b0 => exact analyze_constraints_fst_ne (by simpa [_constraint_phase] using hs)

/-- The threat phase only hands on non-empty explanations. -/
theorem threat_phase_fst_ne {tf : Bool} {ba : Option Board} {pw : Bool}
    {exp : Option String} (hexp : ∀ s, exp = some s → s ≠ "") :
    ∀ s, (_threat_phase tf ba pw exp).1 = some s → s ≠ "" := by
  intro s hs
  cases tf with
  | false => exact hexp s (by simpa [_threat_phase] using hs)
  | true =>
    cases ba with
    | none => exact hexp s (by simpa [_threat_phase] using hs)
    | some b =>
      cases hd : _detect_threat_type b pw with
      | some r =>
        have hrs : r = s := by simp only [_threat_phase, hd] at hs; simpa using hs
        exact hrs ▸ threat_type_ne hd
      | none =>
        exact hexp s (by simp only [_threat_phase, hd] at hs; simpa using hs)

/-- The phase-2 step only hands on non-empty explanations. -/
theorem phase2_step_fst_ne {exp : Option String} {mf : Bool}
    {bb ba : Option Board} {e0 e1 : Int} {pw : Bool}
    (hexp : ∀ s, exp = some s → s ≠ "") :
    ∀ s, (_phase2_step exp mf bb ba e0 e1 pw).1 = some s → s ≠ "" := by
  intro s hs
  cases exp with
  | some r => exact hexp s (by simpa [_phase2_step] using hs)
  | none =>
    cases bb with
    | none => simp [_phase2_step] at hs
    | some b0 =>
      cases ba with
      | none => simp [_phase2_step] at hs
      | some b1 =>
        cases hd : _phase2_detectors b0 b1 e0 e1 pw with
        | some r =>
          have hrs : r = s := by simp only [_phase2_step, hd] at hs; simpa using hs
          exact hrs ▸ phase2_detectors_ne hd
        | none => simp [_phase2_step, hd] at hs

/-- The phase-5 step only produces non-empty explanations. -/
theorem phase5_step_ne {exp : Option String} {cf : Bool} {bb ba : Option Board}
    {g : MoveGrade} {pw : Bool} {mv : Move} {mf : Bool}
    (hexp : ∀ s, exp = some s → s ≠ "") :
    ∀ s, _phase5_step exp cf bb ba g pw mv mf = some s → s ≠ "" := by
  intro s hs
  cases exp with
  | some r => exact hexp s (by simpa [_phase5_step] using hs)
  | none =>
    cases bb with
    | none => simp [_phase5_step] at hs
    | some b0 =>
      cases ba with
      | none => simp [_phase5_step] at hs
      | some b1 =>
        simp only [_phase5_step] at hs
        split at hs
        · exact tactical_pattern_ne hs
        · exact Option.noConfusion hs

/-- C9: assessment is total and always explains: for every input the
explanation field is non-empty, and with no before-board the explanation
degrades to the grade-keyed fallback. -/
theorem C9_total_and_explained (mv : Move) (e0 e1 : Int) (bm : Option Move)
    (pw : Bool) (bb ba : Option Board) (eng : Option Engine) :
    (assess_move mv e0 e1 bm pw bb ba eng).explanation ≠ "" ∧
    (bb = none →
      (assess_move mv e0 e1 bm pw bb ba eng).explanation =
        _generate_fallback_explanation
          (_determine_grade (_calculate_centipawn_loss e0 e1 pw) (_was_best mv bm))
          (_calculate_centipawn_loss e0 e1 pw) bm.isSome) := by
  constructor
  · simp only [assess_move]
    set g0 := _determine_grade (_calculate_centipawn_loss e0 e1 pw)
      (_was_best mv bm) with hg0
    set c := _constraint_phase bb mv e0 e1 pw eng g0 with hcdef
    set t := _threat_phase c.2.2 ba pw c.1 with htdef
    set p2 := _phase2_step t.1 t.2 bb ba e0 e1 pw with hp2def
    set e4 := _phase5_step p2.1 c.1.isSome bb ba c.2.1 pw mv p2.2 with he4def
    have h1 : ∀ s, c.1 = some s → s ≠ "" := by
      rw [hcdef]
      exact constraint_phase_fst_ne bb mv e0 e1 pw eng g0
    have h2 : ∀ s, t.1 = some s → s ≠ "" := by
      rw [htdef]
      exact threat_phase_fst_ne h1
    have h3 : ∀ s, p2.1 = some s → s ≠ "" := by
      rw [hp2def]
      exact phase2_step_fst_ne h2
    have h4 : ∀ s, e4 = some s → s ≠ "" := by
      rw [he4def]
      exact phase5_step_ne h3
    cases he : e4 with
    | some s2 => exact h4 s2 he
    | none => exact fallback_ne_empty _ _ _
  · intro h
    subst h
    rfl

/-- Witness for C9 with every optional input absent. -/
theorem C9_total_and_explained_witness :
    (assess_move mv0 30 0 none true none none none).explanation ≠ "" ∧
    (assess_move mv0 30 0 none true none none none).explanation =
      _generate_fallback_explanation
        (_determine_grade (_calculate_centipawn_loss 30 0 true)
          (_was_best mv0 none))
        (_calculate_centipawn_loss 30 0 true) (none : Option Move).isSome :=
  ⟨(C9_total_and_explained mv0 30 0 none true none none none).1,
   (C9_total_and_explained mv0 30 0 none true none none none).2 rfl⟩
